import Mathlib

/-!
Verification of the ip-api client library (src/lib.rs) against its
natural-language specification.

The development shallowly embeds the request/decode pipeline of
`IpApi::request`:
  * the request-URL construction from an optional IP address,
  * the response-body collection (chunk concatenation),
  * UTF-8 text decoding,
  * JSON parsing,
  * the field projection into the typed `Response` structure.

JSON numbers are modelled with exact rationals (`Rat`): serde_json's
`as_f64` and the `as f32` narrowing are abstracted to the exact numeric
payload, since IEEE floating-point representation is outside the
embedding; every claim settled here depends only on which keys hold
JSON numbers, not on rounding.
-/

/-- Model of serde_json's `Value`: a JSON document.  Objects are
association lists of key/value pairs (serde_json maps have unique keys
after parsing). -/
inductive Json where
  | null : Json
  | bool : Bool → Json
  | num : Rat → Json
  | str : String → Json
  | arr : List Json → Json
  | obj : List (String × Json) → Json

/-- Association-list lookup used by `Json.get`. -/
def Json.lookupKey : List (String × Json) → String → Option Json
  | [], _ => none
  | (k, v) :: rest, key => if k = key then some v else lookupKey rest key

/-- serde_json `Value::get(index)`: key lookup on an object, `None` on
any non-object value. -/
def Json.get : Json → String → Option Json
  | .obj fields, key => Json.lookupKey fields key
  | _, _ => none

/-- serde_json `Value::as_str`: `Some` exactly on JSON strings. -/
def Json.as_str : Json → Option String
  | .str s => some s
  | _ => none

/-- serde_json `Value::as_bool`: `Some` exactly on JSON booleans. -/
def Json.as_bool : Json → Option Bool
  | .bool b => some b
  | _ => none

/-- serde_json `Value::as_f64`: `Some` on any JSON number (the numeric
payload is modelled exactly, see the file header). -/
def Json.as_f64 : Json → Option Rat
  | .num x => some x
  | _ => none

/-- `NameAndCode` from src/lib.rs: a display name paired with an
abbreviation. -/
structure NameAndCode where
  name : String
  code : String
deriving DecidableEq

/-- `Coordinates` from src/lib.rs.  The Rust fields are `f32` obtained
by narrowing the `f64` lookups; the numeric payload is modelled
exactly. -/
structure Coordinates where
  latitude : Rat
  longitude : Rat
deriving DecidableEq

/-- `Response` from src/lib.rs: the successful result of an
`IpApi::request` call. -/
structure Response where
  query : String
  country : Option NameAndCode
  region : Option NameAndCode
  city : Option String
  zip : Option String
  location : Option Coordinates
  timezone : Option String
  isp : Option String
  organization : Option String
  autonomous_system : Option String
  reverse : Option String
  mobile : Bool
  proxy : Bool
deriving DecidableEq

/-- `get_string` from src/lib.rs:
`json.get(index).and_then(as_str).map(to_owned)`. -/
def get_string (json : Json) (index : String) : Option String :=
  (json.get index).bind Json.as_str

/-- `get_bool` from src/lib.rs:
`json.get(index).and_then(as_bool).unwrap_or(false)`. -/
def get_bool (json : Json) (index : String) : Bool :=
  ((json.get index).bind Json.as_bool).getD false

/-- `get_coordinates` from src/lib.rs: present only when both indices
hold JSON numbers (the `as f32` narrowing is abstracted to the exact
payload). -/
def get_coordinates (json : Json) (latitude_index longitude_index : String) :
    Option Coordinates :=
  match (json.get latitude_index).bind Json.as_f64,
        (json.get longitude_index).bind Json.as_f64 with
  | some latitude, some longitude => some ⟨latitude, longitude⟩
  | _, _ => none

/-- `get_name_and_code` from src/lib.rs: present only when both string
lookups succeed. -/
def get_name_and_code (json : Json) (name_index code_index : String) :
    Option NameAndCode :=
  match get_string json name_index, get_string json code_index with
  | some name, some code => some ⟨name, code⟩
  | _, _ => none

/-- The tagged error kinds of the library's `Error` type, i.e. the
`error_chain` foreign links in src/lib.rs. -/
inductive ErrorKind where
  | hyperError : ErrorKind
  | serdeJsonError : ErrorKind
  | fromUtf8Error : ErrorKind
deriving DecidableEq

/-- The observable outcome of one `request` call: a decoded `Response`,
a tagged failure value returned to the caller, or a process panic (a
Rust `expect`), which terminates the call by unwinding instead of
returning a value. -/
inductive Outcome where
  | ok : Response → Outcome
  | err : ErrorKind → Outcome
  | panicked : String → Outcome
deriving DecidableEq

/-- Whether an outcome is a tagged failure value handed to the caller. -/
def Outcome.isErr : Outcome → Bool
  | .err _ => true
  | _ => false

/-- The message of the `expect` guarding the mandatory `query` field in
src/lib.rs line 168. -/
def queryPanicMsg : String := "The queried IP was not in the response."

/-- The field-projection stage of `IpApi::request` (the final `map`
closure, src/lib.rs lines 165-182): builds the `Response` from the
parsed document; the mandatory `query` lookup panics when it fails. -/
def projectResponse (json : Json) : Outcome :=
  match get_string json "query" with
  | some q =>
      .ok {
        query := q
        country := get_name_and_code json "country" "countryCode"
        region := get_name_and_code json "regionName" "region"
        city := get_string json "city"
        zip := get_string json "zip"
        location := get_coordinates json "lat" "lon"
        timezone := get_string json "timezone"
        isp := get_string json "isp"
        organization := get_string json "org"
        autonomous_system := get_string json "as"
        reverse := get_string json "reverse"
        mobile := get_bool json "mobile"
        proxy := get_bool json "proxy" }
  | none => .panicked queryPanicMsg

example : projectResponse (Json.obj [("country", Json.str "US")]) =
    Outcome.panicked queryPanicMsg := by decide

example : get_bool (Json.obj [("query", Json.str "1.2.3.4")]) "mobile" = false := by
  decide

/-- A UTF-8 continuation byte, `0x80..0xBF`. -/
def isCont (b : Nat) : Bool := 0x80 ≤ b && b ≤ 0xBF

/-- Modelled from the spec: Rust's `String::from_utf8` (standard
library, not part of this repository) — strict UTF-8 decoding of a byte
sequence, rejecting truncated sequences, stray continuation bytes,
overlong encodings, surrogates and values above `0x10FFFF`; `none`
models the `FromUtf8Error` case, with no partial output. -/
def utf8Decode : List Nat → Option (List Char)
  | [] => some []
  | b :: bs =>
    if b < 0x80 then
      (utf8Decode bs).map (fun cs => Char.ofNat b :: cs)
    else if 0xC2 ≤ b && b ≤ 0xDF then
      match bs with
      | b1 :: bs2 =>
        if isCont b1 then
          (utf8Decode bs2).map
            (fun cs => Char.ofNat ((b - 0xC0) * 0x40 + (b1 - 0x80)) :: cs)
        else none
      | [] => none
    else if (b = 0xE0 || (0xE1 ≤ b && b ≤ 0xEF)) then
      match bs with
      | b1 :: b2 :: bs2 =>
        if (if b = 0xE0 then 0xA0 ≤ b1 && b1 ≤ 0xBF
            else if b = 0xED then 0x80 ≤ b1 && b1 ≤ 0x9F
            else isCont b1) && isCont b2 then
          (utf8Decode bs2).map
            (fun cs =>
              Char.ofNat ((b - 0xE0) * 0x1000 + (b1 - 0x80) * 0x40 + (b2 - 0x80)) :: cs)
        else none
      | _ => none
    else if (b = 0xF0 || (0xF1 ≤ b && b ≤ 0xF4)) then
      match bs with
      | b1 :: b2 :: b3 :: bs2 =>
        if (if b = 0xF0 then 0x90 ≤ b1 && b1 ≤ 0xBF
            else if b = 0xF4 then 0x80 ≤ b1 && b1 ≤ 0x8F
            else isCont b1) && (isCont b2 && isCont b3) then
          (utf8Decode bs2).map
            (fun cs =>
              Char.ofNat ((b - 0xF0) * 0x40000 + (b1 - 0x80) * 0x1000 +
                (b2 - 0x80) * 0x40 + (b3 - 0x80)) :: cs)
        else none
      | _ => none
    else none

example : utf8Decode [0x68, 0x69] = some ['h', 'i'] := by decide
example : utf8Decode [0xFF] = none := by decide
example : utf8Decode [0xC3, 0xA9] = some [Char.ofNat 0xE9] := by decide
example : utf8Decode [0xC3] = none := by decide
example : utf8Decode [0xED, 0xA0, 0x80] = none := by decide

/-- Body collection in `IpApi::request` (src/lib.rs lines 150-155):
each chunk is turned into a byte vector and the vectors are
concatenated in order. -/
def collectBody (chunks : List (List Nat)) : List Nat :=
  chunks.flatten

/-- JSON insignificant whitespace. -/
def jsonWs (c : Char) : Bool := c = ' ' || c = '\t' || c = '\n' || c = '\r'

/-- Drop leading JSON whitespace. -/
def skipWs : List Char → List Char
  | [] => []
  | c :: cs => if jsonWs c then skipWs cs else c :: cs

/-- Value of one hexadecimal digit. -/
def hexVal (c : Char) : Option Nat :=
  if c.isDigit then some (c.toNat - 48)
  else if 'a' ≤ c && c ≤ 'f' then some (c.toNat - 97 + 10)
  else if 'A' ≤ c && c ≤ 'F' then some (c.toNat - 65 + 10)
  else none

/-- Four hexadecimal digits, as in a JSON \u escape. -/
def parseHex4 : List Char → Option (Nat × List Char)
  | c1 :: c2 :: c3 :: c4 :: rest =>
    match hexVal c1, hexVal c2, hexVal c3, hexVal c4 with
    | some h1, some h2, some h3, some h4 =>
        some (h1 * 4096 + h2 * 256 + h3 * 16 + h4, rest)
    | _, _, _, _ => none
  | _ => none

/-- JSON string contents after the opening quote: returns the decoded
characters and the remainder after the closing quote.  Handles the
standard escapes including surrogate pairs; rejects lone surrogates,
unescaped control characters and unterminated strings. -/
def parseJStr : Nat → List Char → Option (List Char × List Char)
  | 0, _ => none
  | _ + 1, [] => none
  | fuel + 1, c :: cs =>
    if c = '"' then some ([], cs)
    else if c = '\\' then
      match cs with
      | [] => none
      | e :: cs2 =>
        if e = '"' then (parseJStr fuel cs2).map (fun p => ('"' :: p.1, p.2))
        else if e = '\\' then (parseJStr fuel cs2).map (fun p => ('\\' :: p.1, p.2))
        else if e = '/' then (parseJStr fuel cs2).map (fun p => ('/' :: p.1, p.2))
        else if e = 'b' then
          (parseJStr fuel cs2).map (fun p => (Char.ofNat 8 :: p.1, p.2))
        else if e = 'f' then
          (parseJStr fuel cs2).map (fun p => (Char.ofNat 12 :: p.1, p.2))
        else if e = 'n' then (parseJStr fuel cs2).map (fun p => ('\n' :: p.1, p.2))
        else if e = 'r' then (parseJStr fuel cs2).map (fun p => ('\r' :: p.1, p.2))
        else if e = 't' then (parseJStr fuel cs2).map (fun p => ('\t' :: p.1, p.2))
        else if e = 'u' then
          match parseHex4 cs2 with
          | none => none
          | some (n, cs3) =>
            if 0xD800 ≤ n && n ≤ 0xDBFF then
              match cs3 with
              | '\\' :: 'u' :: cs4 =>
                match parseHex4 cs4 with
                | some (m, cs5) =>
                  if 0xDC00 ≤ m && m ≤ 0xDFFF then
                    (parseJStr fuel cs5).map (fun p =>
                      (Char.ofNat
                        (0x10000 + (n - 0xD800) * 0x400 + (m - 0xDC00)) :: p.1,
                       p.2))
                  else none
                | none => none
              | _ => none
            else if 0xDC00 ≤ n && n ≤ 0xDFFF then none
            else (parseJStr fuel cs3).map (fun p => (Char.ofNat n :: p.1, p.2))
        else none
    else if c.toNat < 0x20 then none
    else (parseJStr fuel cs).map (fun p => (c :: p.1, p.2))

/-- Longest leading run of decimal digits. -/
def takeDigits : List Char → List Char × List Char
  | [] => ([], [])
  | c :: cs =>
    if c.isDigit then
      let p := takeDigits cs
      (c :: p.1, p.2)
    else ([], c :: cs)

/-- Numeric value of a digit string. -/
def digitsToNat (ds : List Char) : Nat :=
  ds.foldl (fun acc c => acc * 10 + (c.toNat - 48)) 0

/-- A JSON number per the JSON grammar (optional minus, integer part
without leading zeros, optional fraction, optional exponent), evaluated
exactly as a rational. -/
def parseNumber (cs : List Char) : Option (Rat × List Char) :=
  let signSplit : Bool × List Char :=
    match cs with
    | '-' :: rest => (true, rest)
    | _ => (false, cs)
  let intStep : Option (Nat × List Char) :=
    match signSplit.2 with
    | '0' :: rest => some (0, rest)
    | c :: rest =>
      if c.isDigit then
        let p := takeDigits rest
        some (digitsToNat (c :: p.1), p.2)
      else none
    | [] => none
  match intStep with
  | none => none
  | some (i, cs2) =>
    let fracStep : Option (Nat × Nat × List Char) :=
      match cs2 with
      | '.' :: rest =>
        let p := takeDigits rest
        if p.1.isEmpty then none else some (digitsToNat p.1, p.1.length, p.2)
      | _ => some (0, 0, cs2)
    match fracStep with
    | none => none
    | some (f, flen, cs3) =>
      let expStep : Option (Int × List Char) :=
        match cs3 with
        | e :: rest =>
          if e = 'e' || e = 'E' then
            let signed : Int × List Char :=
              match rest with
              | '+' :: r => (1, r)
              | '-' :: r => (-1, r)
              | _ => (1, rest)
            let p := takeDigits signed.2
            if p.1.isEmpty then none
            else some (signed.1 * (digitsToNat p.1 : Int), p.2)
          else some (0, cs3)
        | [] => some (0, cs3)
      match expStep with
      | none => none
      | some (ex, cs4) =>
        let mant : Rat := ((i * 10 ^ flen + f : Nat) : Rat) / ((10 ^ flen : Nat) : Rat)
        let v : Rat :=
          if 0 ≤ ex then mant * ((10 ^ ex.toNat : Nat) : Rat)
          else mant / ((10 ^ (-ex).toNat : Nat) : Rat)
        some (if signSplit.1 then -v else v, cs4)

/-- Add a parsed member to the members parsed after it.  serde_json
inserts members first-to-last into a map, so on a duplicate key the
last occurrence wins: an earlier member is dropped when its key
reappears later. -/
def insertMember (k : String) (v : Json) (ms : List (String × Json)) :
    List (String × Json) :=
  if (ms.map Prod.fst).contains k then ms else (k, v) :: ms

mutual

/-- Modelled from the spec: serde_json's `from_str::<Value>` (external
to this repository) — recursive-descent parse of one JSON value,
returning the value and the unconsumed remainder; `none` on malformed
input. -/
def parseVal : Nat → List Char → Option (Json × List Char)
  | 0, _ => none
  | fuel + 1, cs =>
    match skipWs cs with
    | [] => none
    | c :: rest =>
      if c = '\x7b' then parseObjBody fuel rest
      else if c = '[' then parseArrBody fuel rest
      else if c = '"' then
        (parseJStr (rest.length + 1) rest).map
          (fun p => (Json.str (String.mk p.1), p.2))
      else if c = 't' then
        match rest with
        | 'r' :: 'u' :: 'e' :: rest2 => some (Json.bool true, rest2)
        | _ => none
      else if c = 'f' then
        match rest with
        | 'a' :: 'l' :: 's' :: 'e' :: rest2 => some (Json.bool false, rest2)
        | _ => none
      else if c = 'n' then
        match rest with
        | 'u' :: 'l' :: 'l' :: rest2 => some (Json.null, rest2)
        | _ => none
      else if c = '-' || c.isDigit then
        (parseNumber (c :: rest)).map (fun p => (Json.num p.1, p.2))
      else none

/-- Object contents after the opening brace. -/
def parseObjBody : Nat → List Char → Option (Json × List Char)
  | 0, _ => none
  | fuel + 1, cs =>
    match skipWs cs with
    | '\x7d' :: rest => some (Json.obj [], rest)
    | _ => (parseMembers fuel cs).map (fun p => (Json.obj p.1, p.2))

/-- One or more `"key": value` members, up to the closing brace. -/
def parseMembers : Nat → List Char → Option (List (String × Json) × List Char)
  | 0, _ => none
  | fuel + 1, cs =>
    match skipWs cs with
    | '"' :: rest =>
      match parseJStr (rest.length + 1) rest with
      | none => none
      | some (key, cs2) =>
        match skipWs cs2 with
        | ':' :: cs3 =>
          match parseVal fuel cs3 with
          | none => none
          | some (v, cs4) =>
            match skipWs cs4 with
            | ',' :: cs5 =>
              (parseMembers fuel cs5).map
                (fun p => (insertMember (String.mk key) v p.1, p.2))
            | '\x7d' :: cs5 => some ([(String.mk key, v)], cs5)
            | _ => none
        | _ => none
    | _ => none

/-- Array contents after the opening bracket. -/
def parseArrBody : Nat → List Char → Option (Json × List Char)
  | 0, _ => none
  | fuel + 1, cs =>
    match skipWs cs with
    | ']' :: rest => some (Json.arr [], rest)
    | _ => (parseElems fuel cs).map (fun p => (Json.arr p.1, p.2))

/-- One or more array elements, up to the closing bracket. -/
def parseElems : Nat → List Char → Option (List Json × List Char)
  | 0, _ => none
  | fuel + 1, cs =>
    match parseVal fuel cs with
    | none => none
    | some (v, cs2) =>
      match skipWs cs2 with
      | ',' :: cs3 => (parseElems fuel cs3).map (fun p => (v :: p.1, p.2))
      | ']' :: cs3 => some ([v], cs3)
      | _ => none

end

/-- Modelled from the spec: parse a complete JSON document — one JSON
value with only whitespace around it; `none` models the
`serde_json::Error` case, with no partial result.

The fuel budget `3 * cs.length + 3` never binds on a well-formed
document: every recursive call in the mutual block can be charged to a
character of the input consumed before it, and no character is charged
more than three calls — the deepest descent per character is
`parseVal` consuming an opening bracket, then `parseArrBody` and
`parseElems` descending without consuming (likewise an opening brace
charges the `parseObjBody`/`parseMembers` descent, a comma the next
element or member, a colon the member's value). -/
def jsonParse (cs : List Char) : Option Json :=
  match parseVal (3 * cs.length + 3) cs with
  | some (v, rest) => if (skipWs rest).isEmpty then some v else none
  | none => none

/-- Rust std `Ipv4Addr`: four octets. -/
structure Ipv4Addr where
  a : Fin 256
  b : Fin 256
  c : Fin 256
  d : Fin 256

/-- Rust std `Ipv6Addr`: eight 16-bit segments. -/
structure Ipv6Addr where
  s0 : Fin 65536
  s1 : Fin 65536
  s2 : Fin 65536
  s3 : Fin 65536
  s4 : Fin 65536
  s5 : Fin 65536
  s6 : Fin 65536
  s7 : Fin 65536

/-- Rust std `IpAddr`: an IPv4 or IPv6 address. -/
inductive IpAddr where
  | v4 : Ipv4Addr → IpAddr
  | v6 : Ipv6Addr → IpAddr

/-- The segment values of an IPv6 address. -/
def Ipv6Addr.segments (ip : Ipv6Addr) : List Nat :=
  [ip.s0.val, ip.s1.val, ip.s2.val, ip.s3.val,
   ip.s4.val, ip.s5.val, ip.s6.val, ip.s7.val]

/-- Digits of `n` in the given base, most significant first (`fuel`
bounds the recursion; it is always called with enough). -/
def natDigitsAux (base : Nat) : Nat → Nat → List Char
  | 0, _ => []
  | fuel + 1, n =>
    if n < base then [Nat.digitChar n]
    else natDigitsAux base fuel (n / base) ++ [Nat.digitChar (n % base)]

/-- Decimal digit characters of `n`. -/
def decChars (n : Nat) : List Char := natDigitsAux 10 (n + 1) n

/-- Lowercase hexadecimal digit characters of `n`. -/
def hexChars (n : Nat) : List Char := natDigitsAux 16 (n + 1) n

/-- Concatenate character groups with a separator between them. -/
def joinSep (sep : List Char) : List (List Char) → List Char
  | [] => []
  | [x] => x
  | x :: xs => x ++ sep ++ joinSep sep xs

/-- Modelled from the spec: the address-as-text form of an IPv4 address
(Rust std `Display`, external to this repository): dotted decimal. -/
def ipv4Chars (ip : Ipv4Addr) : List Char :=
  joinSep ['.'] [decChars ip.a.val, decChars ip.b.val,
                 decChars ip.c.val, decChars ip.d.val]

/-- Length of the run of zero segments starting at position `i`. -/
def zeroRunLen (l : List Nat) (i : Nat) : Nat :=
  ((l.drop i).takeWhile (fun x => x = 0)).length

/-- Leftmost longest run of zero segments: `(start, length)`. -/
def longestZeroRun (l : List Nat) : Nat × Nat :=
  ((List.range l.length).map (fun i => (i, zeroRunLen l i))).foldl
    (fun best c => if best.2 < c.2 then c else best) (0, 0)

/-- Modelled from the spec: the address-as-text form of an IPv6 address
(Rust std `Display`, external to this repository): the IPv4-mapped
special form, otherwise colon-separated lowercase hex groups with the
leftmost longest run of two or more zero groups compressed to two
colons. -/
def ipv6Chars (ip : Ipv6Addr) : List Char :=
  if ip.segments.take 6 = [0, 0, 0, 0, 0, 0xffff] then
    [':', ':', 'f', 'f', 'f', 'f', ':'] ++
      joinSep ['.'] [decChars (ip.s6.val / 256), decChars (ip.s6.val % 256),
                     decChars (ip.s7.val / 256), decChars (ip.s7.val % 256)]
  else if 2 ≤ (longestZeroRun ip.segments).2 then
    joinSep [':'] ((ip.segments.take (longestZeroRun ip.segments).1).map hexChars) ++
      [':', ':'] ++
      joinSep [':']
        ((ip.segments.drop
          ((longestZeroRun ip.segments).1 + (longestZeroRun ip.segments).2)).map
            hexChars)
  else
    joinSep [':'] (ip.segments.map hexChars)

/-- The characters of the textual form of an address. -/
def ipAddrChars : IpAddr → List Char
  | .v4 ip => ipv4Chars ip
  | .v6 ip => ipv6Chars ip

/-- Modelled from the spec: `ip.to_string()` — the textual form of the
optional address as used by `IpApi::request`. -/
def ipAddrToString (ip : IpAddr) : String := String.mk (ipAddrChars ip)

/-- The request-target string built by `IpApi::request` (src/lib.rs
lines 142-145): the fixed base endpoint, with `/` and the address's
textual form appended when an address is given. -/
def requestUrlString (ip : Option IpAddr) : String :=
  let ip_string : String :=
    match ip with
    | some ip => "/" ++ ipAddrToString ip
    | none => ""
  "http://ip-api.com/json" ++ ip_string

/-- Characters acceptable in the authority and path of the URLs this
library builds (a subset of the characters RFC 3986 allows there). -/
def isUriChar (c : Char) : Bool :=
  c.isAlphanum || c = ':' || c = '.' || c = '-' || c = '/'

/-- Modelled from the spec: hyper's `str::parse::<Uri>` success
predicate (external to this repository), conservatively — an `http`
scheme followed by a nonempty remainder of characters allowed in a URL
authority and path.  A string this predicate accepts is a structurally
valid URL. -/
def uriParseOk (s : String) : Bool :=
  match s.data with
  | 'h' :: 't' :: 't' :: 'p' :: ':' :: '/' :: '/' :: rest =>
    !rest.isEmpty && rest.all isUriChar
  | _ => false

/-- The message of the `expect` guarding URL construction in
src/lib.rs lines 146-147. -/
def uriPanicMsg : String :=
  "Could not create the ip-api request URL.\n                    \nThis is an implementation error, please report it to the authors."

/-- The parse-and-project tail of the decode stage (the last two
`and_then`/`map` steps of src/lib.rs lines 161-182). -/
def decodeJson (chars : List Char) : Outcome :=
  match jsonParse chars with
  | none => .err .serdeJsonError
  | some json => projectResponse json

/-- The decode stage of `IpApi::request`: UTF-8 text decoding, JSON
parsing, then field projection, each failure short-circuiting with its
tagged error kind (src/lib.rs lines 157-182). -/
def decodeBody (bytes : List Nat) : Outcome :=
  match utf8Decode bytes with
  | none => .err .fromUtf8Error
  | some chars => decodeJson chars

/-- `IpApi::request` (src/lib.rs lines 142-183): build the URL
(panicking if it is not parseable), run the transport (whose outcome is
a parameter here: the network is external), collect the body chunks and
decode.  A transport failure becomes the tagged `hyperError`. -/
def request (ip : Option IpAddr) (transport : Except Unit (List (List Nat))) :
    Outcome :=
  if uriParseOk (requestUrlString ip) then
    match transport with
    | .error _ => .err .hyperError
    | .ok chunks => decodeBody (collectBody chunks)
  else .panicked uriPanicMsg

/-! ## Characterizations of the lookup helpers -/

theorem as_str_eq_some {v : Json} {s : String} :
    v.as_str = some s ↔ v = .str s := by
  cases v <;> simp [Json.as_str]

theorem as_bool_eq_some {v : Json} {b : Bool} :
    v.as_bool = some b ↔ v = .bool b := by
  cases v <;> simp [Json.as_bool]

theorem as_f64_eq_some {v : Json} {x : Rat} :
    v.as_f64 = some x ↔ v = .num x := by
  cases v <;> simp [Json.as_f64]

/-- `get_string` succeeds with `s` exactly when the key holds the JSON
string `s`. -/
theorem get_string_eq_some (j : Json) (k s : String) :
    get_string j k = some s ↔ j.get k = some (.str s) := by
  unfold get_string
  cases h : j.get k with
  | none => simp
  | some v => simpa using as_str_eq_some (v := v) (s := s)

/-- A numeric lookup succeeds with `x` exactly when the key holds the
JSON number `x`. -/
theorem get_num_eq_some (j : Json) (k : String) (x : Rat) :
    (j.get k).bind Json.as_f64 = some x ↔ j.get k = some (.num x) := by
  cases h : j.get k with
  | none => simp
  | some v => simpa using as_f64_eq_some (v := v) (x := x)

/-- `get_name_and_code` succeeds exactly when both string lookups do,
with no condition on the contents of the strings. -/
theorem get_name_and_code_eq_some (j : Json) (ni ci n c : String) :
    get_name_and_code j ni ci = some ⟨n, c⟩ ↔
      j.get ni = some (.str n) ∧ j.get ci = some (.str c) := by
  rw [← get_string_eq_some, ← get_string_eq_some]
  unfold get_name_and_code
  cases h1 : get_string j ni <;> cases h2 : get_string j ci <;>
    simp [NameAndCode.mk.injEq]

/-- Presence form of `get_name_and_code_eq_some`. -/
theorem get_name_and_code_isSome (j : Json) (ni ci : String) :
    (get_name_and_code j ni ci).isSome = true ↔
      (∃ n, j.get ni = some (.str n)) ∧ (∃ c, j.get ci = some (.str c)) := by
  constructor
  · intro h
    rcases Option.isSome_iff_exists.1 h with ⟨p, hp⟩
    rcases p with ⟨n, c⟩
    rcases (get_name_and_code_eq_some j ni ci n c).1 hp with ⟨h1, h2⟩
    exact ⟨⟨n, h1⟩, ⟨c, h2⟩⟩
  · rintro ⟨⟨n, h1⟩, ⟨c, h2⟩⟩
    rw [(get_name_and_code_eq_some j ni ci n c).2 ⟨h1, h2⟩]
    rfl

/-- `get_bool` reads the boolean under the key and defaults to `false`
when the key is absent or holds a non-boolean. -/
theorem get_bool_eq (j : Json) (k : String) :
    get_bool j k = (match j.get k with
      | some (Json.bool b) => b
      | _ => false) := by
  unfold get_bool
  cases h : j.get k with
  | none => rfl
  | some v => cases v <;> rfl

/-- `get_coordinates` succeeds exactly when both numeric lookups do. -/
theorem get_coordinates_eq_some (j : Json) (la lo : String) (x y : Rat) :
    get_coordinates j la lo = some ⟨x, y⟩ ↔
      j.get la = some (.num x) ∧ j.get lo = some (.num y) := by
  rw [← get_num_eq_some, ← get_num_eq_some]
  unfold get_coordinates
  cases h1 : (j.get la).bind Json.as_f64 <;>
    cases h2 : (j.get lo).bind Json.as_f64 <;>
    simp [Coordinates.mk.injEq]

/-- Presence form of `get_coordinates_eq_some`. -/
theorem get_coordinates_isSome (j : Json) (la lo : String) :
    (get_coordinates j la lo).isSome = true ↔
      (∃ x, j.get la = some (.num x)) ∧ (∃ y, j.get lo = some (.num y)) := by
  constructor
  · intro h
    rcases Option.isSome_iff_exists.1 h with ⟨p, hp⟩
    rcases p with ⟨x, y⟩
    rcases (get_coordinates_eq_some j la lo x y).1 hp with ⟨h1, h2⟩
    exact ⟨⟨x, h1⟩, ⟨y, h2⟩⟩
  · rintro ⟨⟨x, h1⟩, ⟨y, h2⟩⟩
    rw [(get_coordinates_eq_some j la lo x y).2 ⟨h1, h2⟩]
    rfl

/-- A successful projection determines every field of the `Response`
by the corresponding lookup of src/lib.rs lines 165-182. -/
theorem projectResponse_ok_elim (j : Json) (r : Response)
    (h : projectResponse j = .ok r) :
    get_string j "query" = some r.query ∧
    r.country = get_name_and_code j "country" "countryCode" ∧
    r.region = get_name_and_code j "regionName" "region" ∧
    r.city = get_string j "city" ∧
    r.zip = get_string j "zip" ∧
    r.location = get_coordinates j "lat" "lon" ∧
    r.timezone = get_string j "timezone" ∧
    r.isp = get_string j "isp" ∧
    r.organization = get_string j "org" ∧
    r.autonomous_system = get_string j "as" ∧
    r.reverse = get_string j "reverse" ∧
    r.mobile = get_bool j "mobile" ∧
    r.proxy = get_bool j "proxy" := by
  unfold projectResponse at h
  cases hq : get_string j "query" with
  | none => rw [hq] at h; exact absurd h (by simp)
  | some q =>
    rw [hq] at h
    cases h
    exact ⟨rfl, rfl, rfl, rfl, rfl, rfl, rfl, rfl, rfl, rfl, rfl, rfl, rfl⟩

/-- The projection never produces a tagged failure value: its only
outcomes are a `Response` or the `query` panic. -/
theorem projectResponse_not_err (j : Json) :
    (projectResponse j).isErr = false := by
  unfold projectResponse
  cases hq : get_string j "query" <;> rfl

/-- When the mandatory lookup fails, the projection panics. -/
theorem projectResponse_panics (j : Json)
    (h : get_string j "query" = none) :
    projectResponse j = .panicked queryPanicMsg := by
  unfold projectResponse
  rw [h]

/-! ## Claim C1 -/

/-- A well-formed response document with no `query` key. -/
def c1Body : String := "\x7b\"country\":\"United States\"\x7d"

/-- The parse of `c1Body`. -/
def c1Json : Json := Json.obj [("country", Json.str "United States")]

/-- C1 counterexample: on a well-formed document lacking `query`, the
decode stage of `request` terminates by the `expect` panic, not by a
tagged failure value as the claim states. -/
theorem c1_counterexample :
    request none (Except.ok [c1Body.toList.map Char.toNat]) =
      Outcome.panicked queryPanicMsg ∧
    (request none (Except.ok [c1Body.toList.map Char.toNat])).isErr = false := by
  decide

/-- C1 (amended): for every otherwise well-formed JSON response
document in which the key `query` is absent, the decode stage of
`IpApi::request` terminates by the missing-field panic (assertion-style
abort); it does not silently default the query field and does not
return a tagged failure value to the caller. -/
theorem c1_missing_query_panics (bytes : List Nat) (chars : List Char)
    (json : Json) (h1 : utf8Decode bytes = some chars)
    (h2 : jsonParse chars = some json) (h3 : json.get "query" = none) :
    decodeBody bytes = Outcome.panicked queryPanicMsg ∧
    (decodeBody bytes).isErr = false := by
  have hd : decodeBody bytes = projectResponse json := by
    show (match utf8Decode bytes with
      | none => Outcome.err ErrorKind.fromUtf8Error
      | some chars => decodeJson chars) = projectResponse json
    rw [h1]
    show (match jsonParse chars with
      | none => Outcome.err ErrorKind.serdeJsonError
      | some json => projectResponse json) = projectResponse json
    rw [h2]
  rw [hd, projectResponse_panics json (by unfold get_string; rw [h3]; rfl)]
  exact ⟨rfl, rfl⟩

/-- A deeply nested well-formed document with no `query` key. -/
def c1wBody : String := "\x7b\"a\":[[[[[\"deep\"]]]]]\x7d"

/-- The parse of `c1wBody`. -/
def c1wJson : Json :=
  Json.obj
    [("a", Json.arr [Json.arr [Json.arr [Json.arr [Json.arr [Json.str "deep"]]]]])]

/-- C1 witness: the amended claim evaluated on the concrete nested
document `c1wBody`. -/
theorem c1_missing_query_panics_witness :
    decodeBody (c1wBody.toList.map Char.toNat) = Outcome.panicked queryPanicMsg ∧
    (decodeBody (c1wBody.toList.map Char.toNat)).isErr = false :=
  c1_missing_query_panics _ c1wBody.toList c1wJson (by decide) (by rfl) (by rfl)

/-! ## Claim C2 -/

/-- A document whose `countryCode` is present but empty. -/
def c2Json : Json :=
  Json.obj [("query", Json.str "8.8.8.8"), ("country", Json.str "United States"),
            ("countryCode", Json.str "")]

/-- C2 counterexample: with `countryCode` the empty string, the claim
requires the `country` pair to be absent, but the decoded `Result`
keeps it — src/lib.rs lines 200-212 check presence only, never
emptiness. -/
theorem c2_counterexample :
    projectResponse c2Json = Outcome.ok
      { query := "8.8.8.8", country := some ⟨"United States", ""⟩,
        region := none, city := none, zip := none, location := none,
        timezone := none, isp := none, organization := none,
        autonomous_system := none, reverse := none,
        mobile := false, proxy := false } := by decide

/-- C2 (amended): for every JSON response document whose decode
succeeds, the `country` field of the Result is present with value
`⟨n, c⟩` iff the `country` and `countryCode` keys hold the JSON strings
`n` and `c` — with no emptiness condition — and likewise `region` from
`regionName` and `region`; if either half is missing or non-string the
whole pair is absent. -/
theorem c2_pairing (j : Json) (r : Response)
    (h : projectResponse j = .ok r) :
    (∀ n c : String, r.country = some ⟨n, c⟩ ↔
      j.get "country" = some (.str n) ∧ j.get "countryCode" = some (.str c)) ∧
    (r.country.isSome = true ↔
      (∃ n, j.get "country" = some (.str n)) ∧
      (∃ c, j.get "countryCode" = some (.str c))) ∧
    (∀ n c : String, r.region = some ⟨n, c⟩ ↔
      j.get "regionName" = some (.str n) ∧ j.get "region" = some (.str c)) ∧
    (r.region.isSome = true ↔
      (∃ n, j.get "regionName" = some (.str n)) ∧
      (∃ c, j.get "region" = some (.str c))) := by
  have he := projectResponse_ok_elim j r h
  refine ⟨fun n c => ?_, ?_, fun n c => ?_, ?_⟩
  · rw [he.2.1]; exact get_name_and_code_eq_some j "country" "countryCode" n c
  · rw [he.2.1]; exact get_name_and_code_isSome j "country" "countryCode"
  · rw [he.2.2.1]; exact get_name_and_code_eq_some j "regionName" "region" n c
  · rw [he.2.2.1]; exact get_name_and_code_isSome j "regionName" "region"

/-- A document with full country and region pairs. -/
def c2wJson : Json :=
  Json.obj [("query", Json.str "1.1.1.1"), ("country", Json.str "Australia"),
            ("countryCode", Json.str "AU"), ("regionName", Json.str "Queensland"),
            ("region", Json.str "QLD")]

/-- The decoded Result of `c2wJson`. -/
def c2wResp : Response :=
  { query := "1.1.1.1", country := some ⟨"Australia", "AU"⟩,
    region := some ⟨"Queensland", "QLD"⟩, city := none, zip := none,
    location := none, timezone := none, isp := none, organization := none,
    autonomous_system := none, reverse := none, mobile := false, proxy := false }

/-- C2 witness: the amended pairing rule evaluated on `c2wJson`. -/
theorem c2_pairing_witness :
    c2wResp.country = some ⟨"Australia", "AU"⟩ ∧
    c2wResp.region = some ⟨"Queensland", "QLD"⟩ :=
  ⟨((c2_pairing c2wJson c2wResp (by decide)).1 "Australia" "AU").2 ⟨rfl, rfl⟩,
   ((c2_pairing c2wJson c2wResp (by decide)).2.2.1 "Queensland" "QLD").2 ⟨rfl, rfl⟩⟩

/-! ## Claim C3 -/

/-- C3: for every invalid-UTF-8 byte sequence supplied as the response
body, decoding yields the text-encoding failure value to the caller —
never a panic and never a partially decoded Result — and the whole
`request` call propagates it unchanged. -/
theorem c3_invalid_utf8 (bytes : List Nat) (h : utf8Decode bytes = none) :
    decodeBody bytes = Outcome.err ErrorKind.fromUtf8Error ∧
    request none (Except.ok [bytes]) = Outcome.err ErrorKind.fromUtf8Error := by
  have hd : decodeBody bytes = Outcome.err ErrorKind.fromUtf8Error := by
    show (match utf8Decode bytes with
      | none => Outcome.err ErrorKind.fromUtf8Error
      | some chars => decodeJson chars) = _
    rw [h]
  have hreq : request none (Except.ok [bytes]) = decodeBody (collectBody [bytes]) := by
    unfold request
    rw [if_pos (by decide)]
  have hc : collectBody [bytes] = bytes := by
    simp [collectBody]
  rw [hreq, hc]
  exact ⟨hd, hd⟩

/-- C3 witness: the stray byte 0xFF is not valid UTF-8. -/
theorem c3_invalid_utf8_witness :
    decodeBody [0xFF] = Outcome.err ErrorKind.fromUtf8Error ∧
    request none (Except.ok [[0xFF]]) = Outcome.err ErrorKind.fromUtf8Error :=
  c3_invalid_utf8 [0xFF] (by decide)

/-! ## Claim C4 -/

/-- C4: for every response body that is valid UTF-8 but not
syntactically valid JSON, decoding yields the parse failure value and
no partial Result. -/
theorem c4_invalid_json (bytes : List Nat) (chars : List Char)
    (h1 : utf8Decode bytes = some chars) (h2 : jsonParse chars = none) :
    decodeBody bytes = Outcome.err ErrorKind.serdeJsonError := by
  show (match utf8Decode bytes with
    | none => Outcome.err ErrorKind.fromUtf8Error
    | some chars => decodeJson chars) = _
  rw [h1]
  show (match jsonParse chars with
    | none => Outcome.err ErrorKind.serdeJsonError
    | some json => projectResponse json) = _
  rw [h2]

/-- The truncated document of the spec's test list. -/
def c4Body : String := "\x7b\"query\":"

/-- C4 witness: the truncated document `c4Body` parses as UTF-8 text
but fails the JSON parse. -/
theorem c4_invalid_json_witness :
    decodeBody (c4Body.toList.map Char.toNat) = Outcome.err ErrorKind.serdeJsonError :=
  c4_invalid_json _ c4Body.toList (by decide) (by rfl)

/-! ## Claim C7 -/

/-- C7: every optional text field of the Result is present iff the
corresponding named key holds a JSON string (not null, not absent, not
another type), and its value is the source string verbatim. -/
theorem c7_string_fields (j : Json) (r : Response)
    (h : projectResponse j = .ok r) :
    (∀ s, r.city = some s ↔ j.get "city" = some (.str s)) ∧
    (∀ s, r.zip = some s ↔ j.get "zip" = some (.str s)) ∧
    (∀ s, r.timezone = some s ↔ j.get "timezone" = some (.str s)) ∧
    (∀ s, r.isp = some s ↔ j.get "isp" = some (.str s)) ∧
    (∀ s, r.organization = some s ↔ j.get "org" = some (.str s)) ∧
    (∀ s, r.autonomous_system = some s ↔ j.get "as" = some (.str s)) ∧
    (∀ s, r.reverse = some s ↔ j.get "reverse" = some (.str s)) := by
  obtain ⟨-, -, -, hci, hz, -, ht, hi, ho, ha, hrv, -, -⟩ :=
    projectResponse_ok_elim j r h
  refine ⟨fun s => ?_, fun s => ?_, fun s => ?_, fun s => ?_, fun s => ?_,
    fun s => ?_, fun s => ?_⟩
  · rw [hci]; exact get_string_eq_some j "city" s
  · rw [hz]; exact get_string_eq_some j "zip" s
  · rw [ht]; exact get_string_eq_some j "timezone" s
  · rw [hi]; exact get_string_eq_some j "isp" s
  · rw [ho]; exact get_string_eq_some j "org" s
  · rw [ha]; exact get_string_eq_some j "as" s
  · rw [hrv]; exact get_string_eq_some j "reverse" s

/-- A document carrying all seven optional text fields. -/
def c7Json : Json :=
  Json.obj [("query", Json.str "8.8.8.8"), ("city", Json.str "Mountain View"),
            ("zip", Json.str "94035"), ("timezone", Json.str "America/Los_Angeles"),
            ("isp", Json.str "Google"), ("org", Json.str "Google LLC"),
            ("as", Json.str "AS15169 Google LLC"), ("reverse", Json.str "dns.google")]

/-- The decoded Result of `c7Json`. -/
def c7Resp : Response :=
  { query := "8.8.8.8", country := none, region := none,
    city := some "Mountain View", zip := some "94035", location := none,
    timezone := some "America/Los_Angeles", isp := some "Google",
    organization := some "Google LLC",
    autonomous_system := some "AS15169 Google LLC",
    reverse := some "dns.google", mobile := false, proxy := false }

/-- C7 witness: the round trip of the text fields of `c7Json`. -/
theorem c7_string_fields_witness :
    c7Resp.city = some "Mountain View" ∧
    c7Resp.autonomous_system = some "AS15169 Google LLC" ∧
    c7Resp.reverse = some "dns.google" :=
  ⟨((c7_string_fields c7Json c7Resp (by decide)).1 "Mountain View").2 rfl,
   ((c7_string_fields c7Json c7Resp (by decide)).2.2.2.2.2.1 "AS15169 Google LLC").2 rfl,
   ((c7_string_fields c7Json c7Resp (by decide)).2.2.2.2.2.2 "dns.google").2 rfl⟩

/-! ## Claim C8 -/

/-- C8: the Result's `mobile` and `proxy` equal the document's boolean
values when present as JSON booleans and silently default to `false`
when the key is absent or non-boolean; the default is never reported as
a failure. -/
theorem c8_bool_fields (j : Json) :
    (projectResponse j).isErr = false ∧
    ∀ r, projectResponse j = .ok r →
      r.mobile = (match j.get "mobile" with
        | some (Json.bool b) => b
        | _ => false) ∧
      r.proxy = (match j.get "proxy" with
        | some (Json.bool b) => b
        | _ => false) := by
  refine ⟨projectResponse_not_err j, fun r h => ?_⟩
  obtain ⟨-, -, -, -, -, -, -, -, -, -, -, hm, hp⟩ :=
    projectResponse_ok_elim j r h
  exact ⟨by rw [hm, get_bool_eq], by rw [hp, get_bool_eq]⟩

/-- A document whose `mobile` is a boolean and whose `proxy` is a
non-boolean; the other boolean key is absent. -/
def c8Json : Json :=
  Json.obj [("query", Json.str "8.8.8.8"), ("mobile", Json.bool true),
            ("proxy", Json.str "yes")]

/-- The decoded Result of `c8Json`. -/
def c8Resp : Response :=
  { query := "8.8.8.8", country := none, region := none, city := none,
    zip := none, location := none, timezone := none, isp := none,
    organization := none, autonomous_system := none, reverse := none,
    mobile := true, proxy := false }

/-- C8 witness: a present boolean is read and a non-boolean defaults to
`false` on the concrete document `c8Json`. -/
theorem c8_bool_fields_witness :
    c8Resp.mobile = true ∧ c8Resp.proxy = false :=
  ⟨((c8_bool_fields c8Json).2 c8Resp (by decide)).1.trans (by rfl),
   ((c8_bool_fields c8Json).2 c8Resp (by decide)).2.trans (by rfl)⟩

/-! ## Claim C9 -/

/-- C9: the Result's `location` is present iff both `lat` and `lon`
hold JSON numbers (any JSON number), in which case it carries exactly
those two coordinates (the `f32` narrowing is abstracted to the exact
numeric payload); in particular a string `lat` leaves it absent. -/
theorem c9_location (j : Json) (r : Response)
    (h : projectResponse j = .ok r) :
    (r.location.isSome = true ↔
      (∃ x, j.get "lat" = some (.num x)) ∧ (∃ y, j.get "lon" = some (.num y))) ∧
    (∀ x y : Rat, r.location = some ⟨x, y⟩ ↔
      j.get "lat" = some (.num x) ∧ j.get "lon" = some (.num y)) := by
  obtain ⟨-, -, -, -, -, hl, -, -, -, -, -, -, -⟩ :=
    projectResponse_ok_elim j r h
  refine ⟨?_, fun x y => ?_⟩
  · rw [hl]; exact get_coordinates_isSome j "lat" "lon"
  · rw [hl]; exact get_coordinates_eq_some j "lat" "lon" x y

/-- A document with numeric coordinates. -/
def c9Json : Json :=
  Json.obj [("query", Json.str "8.8.8.8"), ("lat", Json.num 37),
            ("lon", Json.num (-122))]

/-- The decoded Result of `c9Json`. -/
def c9Resp : Response :=
  { query := "8.8.8.8", country := none, region := none, city := none,
    zip := none, location := some ⟨37, -122⟩, timezone := none, isp := none,
    organization := none, autonomous_system := none, reverse := none,
    mobile := false, proxy := false }

/-- A document whose `lat` is a string instead of a number. -/
def c9bJson : Json :=
  Json.obj [("query", Json.str "8.8.8.8"), ("lat", Json.str "37"),
            ("lon", Json.num (-122))]

/-- The decoded Result of `c9bJson`: `location` absent. -/
def c9bResp : Response :=
  { query := "8.8.8.8", country := none, region := none, city := none,
    zip := none, location := none, timezone := none, isp := none,
    organization := none, autonomous_system := none, reverse := none,
    mobile := false, proxy := false }

/-- C9 witness: numeric coordinates are decoded, and a string `lat`
leaves `location` absent. -/
theorem c9_location_witness :
    c9Resp.location = some ⟨37, -122⟩ ∧
    projectResponse c9bJson = Outcome.ok c9bResp ∧ c9bResp.location = none :=
  ⟨((c9_location c9Json c9Resp (by rfl)).2 37 (-122)).2 ⟨rfl, rfl⟩,
   by rfl, rfl⟩

/-! ## Claim C10 -/

/-- C10: when the `query` key is present but its value is not a JSON
string, projection terminates by the very panic used when `query` is
absent — the mandatory-field check distinguishes string-valued
presence, not key existence. -/
theorem c10_nonstring_query (j v : Json)
    (h1 : j.get "query" = some v) (h2 : v.as_str = none) :
    projectResponse j = Outcome.panicked queryPanicMsg := by
  apply projectResponse_panics
  unfold get_string
  rw [h1]
  exact h2

/-- A document whose `query` is JSON null. -/
def c10Json : Json := Json.obj [("query", Json.null)]

/-- C10 witness: a null `query` panics exactly like an absent one. -/
theorem c10_nonstring_query_witness :
    projectResponse c10Json = Outcome.panicked queryPanicMsg :=
  c10_nonstring_query c10Json Json.null rfl rfl

/-! ## Claim C5 -/

/-- String concatenation is associative (used to regroup the URL
construction). -/
theorem string_append_assoc (a b c : String) : a ++ b ++ c = a ++ (b ++ c) := by
  cases a
  cases b
  cases c
  show String.mk _ = String.mk _
  rw [List.append_assoc]

/-- C5: the request target is the fixed base endpoint with a slash and
the address's textual form appended when an address is given, and the
bare base endpoint — no trailing path segment — when none is given. -/
theorem c5_request_target :
    (∀ ip : IpAddr, requestUrlString (some ip) =
      "http://ip-api.com/json" ++ "/" ++ ipAddrToString ip) ∧
    requestUrlString none = "http://ip-api.com/json" := by
  constructor
  · intro ip
    unfold requestUrlString
    rw [string_append_assoc]
  · decide

/-! ## Claim C6 -/

theorem digitChar_alphanum (n : Nat) (h : n < 16) :
    (Nat.digitChar n).isAlphanum = true := by
  have hfin : ∀ m : Fin 16, (Nat.digitChar m.val).isAlphanum = true := by decide
  exact hfin ⟨n, h⟩

/-- Every character produced by `natDigitsAux` in a base up to 16 is
alphanumeric. -/
theorem natDigitsAux_alphanum (base : Nat) (hb : base ≤ 16) (hb0 : 0 < base) :
    ∀ (fuel n : Nat), ∀ c ∈ natDigitsAux base fuel n, c.isAlphanum = true := by
  intro fuel
  induction fuel with
  | zero => intro n c hc; simp [natDigitsAux] at hc
  | succ f ih =>
    intro n c hc
    unfold natDigitsAux at hc
    by_cases h : n < base
    · rw [if_pos h] at hc
      simp at hc
      subst hc
      exact digitChar_alphanum n (lt_of_lt_of_le h hb)
    · rw [if_neg h] at hc
      rcases List.mem_append.1 hc with h1 | h1
      · exact ih _ c h1
      · simp at h1
        subst h1
        exact digitChar_alphanum _ (lt_of_lt_of_le (Nat.mod_lt n hb0) hb)

theorem decChars_alphanum (n : Nat) : ∀ c ∈ decChars n, c.isAlphanum = true :=
  natDigitsAux_alphanum 10 (by omega) (by omega) (n + 1) n

theorem hexChars_alphanum (n : Nat) : ∀ c ∈ hexChars n, c.isAlphanum = true :=
  natDigitsAux_alphanum 16 (by omega) (by omega) (n + 1) n

theorem isUriChar_of_alphanum (c : Char) (h : c.isAlphanum = true) :
    isUriChar c = true := by
  simp [isUriChar, h]

/-- Characters of a separated join are separator characters or group
characters. -/
theorem joinSep_mem (sep : List Char) (hsep : ∀ c ∈ sep, isUriChar c = true) :
    ∀ (l : List (List Char)), (∀ x ∈ l, ∀ c ∈ x, isUriChar c = true) →
      ∀ c ∈ joinSep sep l, isUriChar c = true
  | [], _, c, hc => by simp [joinSep] at hc
  | [x], hl, c, hc => by
      exact hl x (by simp) c hc
  | x :: y :: xs, hl, c, hc => by
      rw [show joinSep sep (x :: y :: xs) = x ++ sep ++ joinSep sep (y :: xs)
        from rfl] at hc
      rcases List.mem_append.1 hc with h1 | h1
      · rcases List.mem_append.1 h1 with h2 | h2
        · exact hl x (by simp) c h2
        · exact hsep c h2
      · exact joinSep_mem sep hsep (y :: xs)
          (fun z hz d hd => hl z (List.mem_cons_of_mem x hz) d hd) c h1

/-- Colon-joined hex groups use only URL characters. -/
theorem joinSep_hexGroups (l : List Nat) :
    ∀ c ∈ joinSep [':'] (l.map hexChars), isUriChar c = true := by
  apply joinSep_mem
  · intro c hc; simp at hc; subst hc; decide
  · intro x hx c hc
    rcases List.mem_map.1 hx with ⟨n, -, rfl⟩
    exact isUriChar_of_alphanum c (hexChars_alphanum n c hc)

/-- Every character of an IPv4 textual form is a URL character. -/
theorem ipv4Chars_uri (ip : Ipv4Addr) : ∀ c ∈ ipv4Chars ip, isUriChar c = true := by
  apply joinSep_mem
  · intro c hc; simp at hc; subst hc; decide
  · intro x hx c hc
    simp only [List.mem_cons, List.not_mem_nil, or_false] at hx
    rcases hx with h | h | h | h <;>
      (subst h; exact isUriChar_of_alphanum c (decChars_alphanum _ c hc))

/-- Every character of an IPv6 textual form is a URL character. -/
theorem ipv6Chars_uri (ip : Ipv6Addr) : ∀ c ∈ ipv6Chars ip, isUriChar c = true := by
  intro c hc
  unfold ipv6Chars at hc
  by_cases h1 : ip.segments.take 6 = [0, 0, 0, 0, 0, 0xffff]
  · rw [if_pos h1] at hc
    rcases List.mem_append.1 hc with h2 | h2
    · simp only [List.mem_cons, List.not_mem_nil, or_false] at h2
      rcases h2 with rfl | rfl | rfl | rfl | rfl | rfl | rfl <;> decide
    · refine joinSep_mem ['.'] ?_ _ ?_ c h2
      · intro d hd; simp at hd; subst hd; decide
      · intro x hx d hd
        simp only [List.mem_cons, List.not_mem_nil, or_false] at hx
        rcases hx with h | h | h | h <;>
          (subst h; exact isUriChar_of_alphanum d (decChars_alphanum _ d hd))
  · rw [if_neg h1] at hc
    by_cases h2 : 2 ≤ (longestZeroRun ip.segments).2
    · rw [if_pos h2] at hc
      rcases List.mem_append.1 hc with h3 | h3
      · rcases List.mem_append.1 h3 with h4 | h4
        · exact joinSep_hexGroups _ c h4
        · simp only [List.mem_cons, List.not_mem_nil, or_false] at h4
          rcases h4 with rfl | rfl <;> decide
      · exact joinSep_hexGroups _ c h3
    · rw [if_neg h2] at hc
      exact joinSep_hexGroups _ c hc

/-- Every character of an address's textual form is a URL character. -/
theorem ipAddrChars_uri (ip : IpAddr) : ∀ c ∈ ipAddrChars ip, isUriChar c = true := by
  cases ip with
  | v4 a => exact ipv4Chars_uri a
  | v6 a => exact ipv6Chars_uri a

/-- The projection yields the `query` panic or a `Response`, nothing
else. -/
theorem projectResponse_cases (j : Json) :
    projectResponse j = Outcome.panicked queryPanicMsg ∨
      ∃ r, projectResponse j = Outcome.ok r := by
  unfold projectResponse
  cases get_string j "query" with
  | none => exact Or.inl rfl
  | some q => exact Or.inr ⟨_, rfl⟩

/-- The decode stage yields one of the two tagged decode failures or
the projection of some document. -/
theorem decodeJson_cases (chars : List Char) :
    decodeJson chars = Outcome.err ErrorKind.serdeJsonError ∨
    ∃ j, decodeJson chars = projectResponse j := by
  unfold decodeJson
  cases jsonParse chars with
  | none => exact Or.inl rfl
  | some j => exact Or.inr ⟨j, rfl⟩

theorem decodeBody_cases (bytes : List Nat) :
    decodeBody bytes = Outcome.err ErrorKind.fromUtf8Error ∨
    decodeBody bytes = Outcome.err ErrorKind.serdeJsonError ∨
    ∃ j, decodeBody bytes = projectResponse j := by
  unfold decodeBody
  cases utf8Decode bytes with
  | none => exact Or.inl rfl
  | some chars =>
    rcases decodeJson_cases chars with h | ⟨j, h⟩
    · exact Or.inr (Or.inl h)
    · exact Or.inr (Or.inr ⟨j, h⟩)

/-- The decode stage can panic only with the missing-`query` message,
never with the URL-construction message. -/
theorem decodeBody_not_uriPanic (bytes : List Nat) :
    decodeBody bytes ≠ Outcome.panicked uriPanicMsg := by
  rcases decodeBody_cases bytes with h | h | ⟨j, h⟩
  · rw [h]; intro hc; exact Outcome.noConfusion hc
  · rw [h]; intro hc; exact Outcome.noConfusion hc
  · rw [h]
    rcases projectResponse_cases j with h2 | ⟨r, h2⟩
    · rw [h2]; intro hc; exact absurd (Outcome.panicked.inj hc) (by decide)
    · rw [h2]; intro hc; exact Outcome.noConfusion hc

/-- C6: for every optional IPv4 or IPv6 address, the constructed
request target parses as a URL, so the abort branch guarding URL
construction is never taken: no call outcome is the URL-construction
panic. -/
theorem c6_url_always_valid (ip : Option IpAddr) :
    uriParseOk (requestUrlString ip) = true ∧
    ∀ t, request ip t ≠ Outcome.panicked uriPanicMsg := by
  have hok : uriParseOk (requestUrlString ip) = true := by
    cases ip with
    | none => decide
    | some a =>
      have hdata : (requestUrlString (some a)).data =
          'h' :: 't' :: 't' :: 'p' :: ':' :: '/' :: '/' ::
            ("ip-api.com/json/".data ++ ipAddrChars a) := rfl
      unfold uriParseOk
      rw [hdata]
      show (!("ip-api.com/json/".data ++ ipAddrChars a).isEmpty &&
            ("ip-api.com/json/".data ++ ipAddrChars a).all isUriChar) = true
      rw [Bool.and_eq_true, List.all_append, Bool.and_eq_true]
      exact ⟨rfl, by decide, List.all_eq_true.2 (fun c hc => ipAddrChars_uri a c hc)⟩
  refine ⟨hok, fun t => ?_⟩
  unfold request
  rw [if_pos hok]
  cases t with
  | error e => simp
  | ok chunks => exact decodeBody_not_uriPanic (collectBody chunks)

/-- C6 witness: the universally-quantified URL validity evaluated on a
concrete IPv4 address and a concrete transport outcome. -/
theorem c6_url_always_valid_witness :
    uriParseOk (requestUrlString (some (IpAddr.v4 ⟨8, 8, 8, 8⟩))) = true ∧
    request (some (IpAddr.v4 ⟨8, 8, 8, 8⟩)) (Except.error ()) ≠
      Outcome.panicked uriPanicMsg :=
  ⟨(c6_url_always_valid (some (IpAddr.v4 ⟨8, 8, 8, 8⟩))).1,
   (c6_url_always_valid (some (IpAddr.v4 ⟨8, 8, 8, 8⟩))).2 (Except.error ())⟩
